import Mathlib

/-!
Verification of the AI review server core (`core/models.py`, `app.py`):
the `ReviewResult` data model and its construction-time normalization,
the GitHub webhook signature verifier, the webhook and manual-review
request handlers, and the Markdown report renderer.

Conventions of the embedding:
* Python `int` is `Int`; Python `float` is modelled as `ℚ` (every float is a
  rational; the operations used on floats here — comparisons for clamping,
  halving of small integers — are exact, so `ℚ` is faithful).
* Byte strings (`bytes`) are `List Nat` with entries below 256; text strings
  are `String`.
* `dict.get(k)` is an `Option`-valued field; `dict.get(k, d)` is `Option.getD`.
* Fallible code paths (Python exceptions) return `Except String α`.
-/

/-- A vulnerability or issue record as the loose key/value mapping
(`Dict[str, Any]`) that `ReviewResult` stores and the renderer consumes.
A missing key reads as `none` (Python `dict.get` returning `None`). -/
structure VulnDict where
  type : Option String := none
  severity : Option String := none
  file : Option String := none
  line : Option String := none
  description : Option String := none
  recommendation : Option String := none
deriving DecidableEq, Repr

/-- `core/models.py` `ReviewResult` dataclass: the stored fields.
`timestamp` is kept abstract as an optional string. -/
structure ReviewResult where
  security_score : Int
  quality_score : Int
  vulnerabilities : List VulnDict
  issues : List VulnDict
  summary : String
  recommendations : List String
  approval : String
  ai_confidence : ℚ
  complexity_analysis : Option (List (String × String)) := none
  timestamp : Option String := none
deriving DecidableEq

/-- `core/models.py` line 68: the `valid_approvals` list of `__post_init__`. -/
def valid_approvals : List String := ["APPROVE", "REQUEST_CHANGES", "COMMENT"]

/-- `ReviewResult.__post_init__` (`core/models.py` lines 56-70): dataclass
construction followed by clamping of the scores to `[0, 100]`, clamping of
`ai_confidence` to `[0, 1]`, coercion of an invalid `approval` to
`"COMMENT"`, and defaulting of an absent timestamp to the current time
(passed in as `now`). -/
def mkReviewResult (security_score quality_score : Int)
    (vulnerabilities issues : List VulnDict) (summary : String)
    (recommendations : List String) (approval : String) (ai_confidence : ℚ)
    (complexity_analysis : Option (List (String × String)))
    (timestamp : Option String) (now : String) : ReviewResult where
  security_score := max 0 (min 100 security_score)
  quality_score := max 0 (min 100 quality_score)
  vulnerabilities := vulnerabilities
  issues := issues
  summary := summary
  recommendations := recommendations
  approval := if approval ∈ valid_approvals then approval else "COMMENT"
  ai_confidence := max 0 (min 1 ai_confidence)
  complexity_analysis := complexity_analysis
  timestamp := some (timestamp.getD now)

/-- Python `int(q)` on a rational value: truncation toward zero. -/
def pyInt (q : ℚ) : Int := Int.tdiv q.num (q.den : Int)

/-- `ReviewResult.overall_score` (`core/models.py` lines 72-75):
`int((security_score + quality_score) / 2)`. Python `/` is exact real
division here (the float halving of an integer in `[-?, 200]` is exact),
and `int` truncates toward zero. -/
def ReviewResult.overall_score (r : ReviewResult) : Int :=
  pyInt (((r.security_score : ℚ) + (r.quality_score : ℚ)) / 2)

/-- `ReviewResult.critical_issues_count` (`core/models.py` lines 77-92):
vulnerabilities whose `severity` is `CRITICAL` or `HIGH`, plus issues whose
`severity` is `HIGH`. -/
def ReviewResult.critical_issues_count (r : ReviewResult) : Nat :=
  r.vulnerabilities.countP
    (fun v => v.severity == some "CRITICAL" || v.severity == some "HIGH") +
  r.issues.countP (fun i => i.severity == some "HIGH")

/-- `ReviewResult.needs_attention` (`core/models.py` lines 94-102). -/
def ReviewResult.needs_attention (r : ReviewResult) : Bool :=
  decide (r.security_score < 70) || decide (r.quality_score < 70) ||
  decide (r.critical_issues_count > 0) || (r.approval == "REQUEST_CHANGES")

/-! ## SHA-256 and HMAC (the `hashlib.sha256` / `hmac` primitives used by
`verify_github_signature` in `app.py`), FIPS 180-4 / RFC 2104, over byte
lists with 32-bit words as `Nat` reduced modulo `2 ^ 32`. -/

/-- Rotate the 32-bit word `n` right by `k` positions. -/
def rotr (k n : Nat) : Nat := ((n >>> k) ||| (n <<< (32 - k))) % 4294967296

def smallSigma0 (x : Nat) : Nat := (rotr 7 x) ^^^ (rotr 18 x) ^^^ (x >>> 3)

def smallSigma1 (x : Nat) : Nat := (rotr 17 x) ^^^ (rotr 19 x) ^^^ (x >>> 10)

def bigSigma0 (x : Nat) : Nat := (rotr 2 x) ^^^ (rotr 13 x) ^^^ (rotr 22 x)

def bigSigma1 (x : Nat) : Nat := (rotr 6 x) ^^^ (rotr 11 x) ^^^ (rotr 25 x)

def sha256Ch (x y z : Nat) : Nat := (x &&& y) ^^^ ((x ^^^ 4294967295) &&& z)

def sha256Maj (x y z : Nat) : Nat := (x &&& y) ^^^ (x &&& z) ^^^ (y &&& z)

/-- The 64 SHA-256 round constants of FIPS 180-4 (the first 32 bits of the
fractional parts of the cube roots of the first 64 primes), in decimal. -/
def sha256K : List Nat :=
  [1116352408, 1899447441, 3049323471, 3921009573, 961987163,
   1508970993, 2453635748, 2870763221, 3624381080, 310598401,
   607225278, 1426881987, 1925078388, 2162078206, 2614888103,
   3248222580, 3835390401, 4022224774, 264347078, 604807628,
   770255983, 1249150122, 1555081692, 1996064986, 2554220882,
   2821834349, 2952996808, 3210313671, 3336571891, 3584528711,
   113926993, 338241895, 666307205, 773529912, 1294757372,
   1396182291, 1695183700, 1986661051, 2177026350, 2456956037,
   2730485921, 2820302411, 3259730800, 3345764771, 3516065817,
   3600352804, 4094571909, 275423344, 430227734, 506948616,
   659060556, 883997877, 958139571, 1322822218, 1537002063,
   1747873779, 1955562222, 2024104815, 2227730452, 2361852424,
   2428436474, 2756734187, 3204031479, 3329325298]

/-- The SHA-256 initial hash value of FIPS 180-4, in decimal. -/
def sha256H0 : List Nat :=
  [1779033703, 3144134277, 1013904242, 2773480762,
   1359893119, 2600822924, 528734635, 1541459225]

/-- Big-endian 8-byte encoding of a length value. -/
def beBytes8 (n : Nat) : List Nat :=
  [(n >>> 56) % 256, (n >>> 48) % 256, (n >>> 40) % 256, (n >>> 32) % 256,
   (n >>> 24) % 256, (n >>> 16) % 256, (n >>> 8) % 256, n % 256]

/-- Big-endian 4-byte encoding of a 32-bit word. -/
def beBytes4 (n : Nat) : List Nat :=
  [(n >>> 24) % 256, (n >>> 16) % 256, (n >>> 8) % 256, n % 256]

/-- SHA-256 padding: append `0x80`, zero bytes to 56 mod 64, then the
64-bit big-endian bit length. -/
def padMessage (msg : List Nat) : List Nat :=
  msg ++ 0x80 :: List.replicate ((64 - (msg.length + 9) % 64) % 64) 0 ++
    beBytes8 (8 * msg.length)

/-- Big-endian 32-bit words of a byte list. -/
def wordsOfBytes : List Nat → List Nat
  | b0 :: b1 :: b2 :: b3 :: rest =>
      (((b0 * 256 + b1) * 256 + b2) * 256 + b3) :: wordsOfBytes rest
  | _ => []

/-- Extend the 16-word message schedule by `k` further words. -/
def scheduleExtend : Nat → List Nat → List Nat
  | 0, w => w
  | k + 1, w =>
      let n := w.length
      scheduleExtend k (w ++
        [(smallSigma1 (w.getD (n - 2) 0) + w.getD (n - 7) 0 +
          smallSigma0 (w.getD (n - 15) 0) + w.getD (n - 16) 0) % 4294967296])

/-- One SHA-256 round on the 8-word working state. -/
def roundStep (st : List Nat) (kw : Nat × Nat) : List Nat :=
  match st with
  | [a, b, c, d, e, f, g, h] =>
      let t1 := (h + bigSigma1 e + sha256Ch e f g + kw.1 + kw.2) % 4294967296
      let t2 := (bigSigma0 a + sha256Maj a b c) % 4294967296
      [(t1 + t2) % 4294967296, a, b, c, (d + t1) % 4294967296, e, f, g]
  | other => other

/-- SHA-256 compression of one 64-byte block into the hash state. -/
def sha256Compress (h : List Nat) (block : List Nat) : List Nat :=
  let w := scheduleExtend 48 (wordsOfBytes block)
  let st := (sha256K.zip w).foldl roundStep h
  (h.zip st).map (fun p => (p.1 + p.2) % 4294967296)

/-- Fold the compression over consecutive 64-byte blocks.  The fuel is any
bound on the number of blocks; each step consumes 64 bytes. -/
def sha256Blocks : Nat → List Nat → List Nat → List Nat
  | _, h, [] => h
  | 0, h, _ => h
  | fuel + 1, h, msg => sha256Blocks fuel (sha256Compress h (msg.take 64)) (msg.drop 64)

/-- SHA-256 of a byte list, as the 32-byte digest. -/
def sha256 (msg : List Nat) : List Nat :=
  let padded := padMessage msg
  ((sha256Blocks padded.length sha256H0 padded).map beBytes4).flatten

/-- HMAC-SHA256 (RFC 2104): a key longer than the 64-byte block is hashed
first; the key is zero-padded to 64 bytes, then the nested
ipad/opad hashes are taken. -/
def hmacSha256 (key msg : List Nat) : List Nat :=
  let k0 := if 64 < key.length then sha256 key ++ List.replicate 32 0
            else key ++ List.replicate (64 - key.length) 0
  sha256 ((k0.map (fun b => b ^^^ 0x5c)) ++
    sha256 ((k0.map (fun b => b ^^^ 0x36)) ++ msg))

/-- Lowercase hexadecimal digit. -/
def hexDigit (n : Nat) : Char :=
  if n = 0 then '0' else if n = 1 then '1' else if n = 2 then '2'
  else if n = 3 then '3' else if n = 4 then '4' else if n = 5 then '5'
  else if n = 6 then '6' else if n = 7 then '7' else if n = 8 then '8'
  else if n = 9 then '9' else if n = 10 then 'a' else if n = 11 then 'b'
  else if n = 12 then 'c' else if n = 13 then 'd' else if n = 14 then 'e'
  else 'f'

/-- Lowercase hex encoding of a byte list (Python `.hexdigest()`). -/
def hexOfBytes (bs : List Nat) : String :=
  String.mk ((bs.map (fun b => [hexDigit (b / 16), hexDigit (b % 16)])).flatten)

/-- `verify_github_signature` (`app.py` lines 33-47).  The configured
secret is carried as its UTF-8 bytes (`GITHUB_WEBHOOK_SECRET.encode('utf-8')`);
an unset or empty secret is `[]` and makes verification trivially pass.
An absent header is `none`; Python's falsiness test also rejects an empty
header string.  `hmac.compare_digest` on the two strings is equality. -/
def verify_github_signature (secret : List Nat) (payload_body : List Nat)
    (signature_header : Option String) : Bool :=
  if secret = [] then true
  else match signature_header with
    | none => false
    | some h =>
        if h = "" then false
        else h == "sha256=" ++ hexOfBytes (hmacSha256 secret payload_body)

/-- The UTF-8 bytes of `"s3cr3t"`. -/
def s3cr3tBytes : List Nat := [0x73, 0x33, 0x63, 0x72, 0x33, 0x74]

/-- The UTF-8 bytes of `"hello"`. -/
def helloBytes : List Nat := [0x68, 0x65, 0x6C, 0x6C, 0x6F]

/-! ## Report renderer (`app.py` lines 249-384).

The source strings contain mojibake marker characters (the repository file
itself stores them that way); they are written below with `\u` escapes,
byte-for-byte as in `app.py`. -/

/-- A value stored in a result's `vulnerabilities`/`issues` list as the
renderer may receive it: either a dict-like record or some other object
(carried as its string form).  Calling `.get` on the latter raises. -/
inductive DictOrRaw where
  | dict (d : VulnDict)
  | raw (s : String)
deriving DecidableEq

/-- A `recommendations` attribute value: a list, or a non-list object
(carried as its string form), as `generate_markdown_report` line 343
distinguishes with `isinstance(recommendations, list)`. -/
inductive RecValue where
  | ofList (l : List String)
  | single (s : String)
deriving DecidableEq

/-- The attributes `generate_markdown_report` reads off the review result
with `getattr(review_result, ..., default)` (`app.py` lines 252-260); the
Lean default field values are those `getattr` defaults. -/
structure RenderInput where
  security_score : Int := 0
  quality_score : Int := 0
  approval : String := "UNKNOWN"
  ai_confidence : ℚ := 0
  summary : String := ""
  vulnerabilities : List DictOrRaw := []
  issues : List DictOrRaw := []
  recommendations : RecValue := .ofList []
deriving DecidableEq

/-- The PR metadata mapping passed to the renderer (`pr_data`): the keys it
reads with `.get`. -/
structure PrData where
  number : Option String := none
  title : Option String := none
  body : Option String := none
  html_url : Option String := none
deriving DecidableEq

/-- `get_score_emoji` (`app.py` lines 364-373). -/
def get_score_emoji (score : Int) : String :=
  if score ≥ 90 then "ğŸŸ¢ Excellent"
  else if score ≥ 70 then "ğŸŸ¡ Good"
  else if score ≥ 50 then "ğŸŸ  Fair"
  else "ğŸ”´ Poor"

/-- `get_severity_emoji` (`app.py` lines 376-384). -/
def get_severity_emoji (severity : String) : String :=
  if severity = "CRITICAL" then "ğŸš¨"
  else if severity = "HIGH" then "ğŸ”´"
  else if severity = "MEDIUM" then "ğŸŸ¡"
  else if severity = "LOW" then "ğŸŸ¢"
  else "âš ï¸"

/-- `serialize_object` (`app.py` lines 60-68): an object with `__dict__`
becomes its dict, a dict stays, anything else becomes its `str` form. -/
def serialize_object : DictOrRaw → DictOrRaw
  | .dict d => .dict d
  | .raw s => .raw s

/-- `x.get(key, default)` on the output of `serialize_object`: succeeds on a
dict; on a plain string it raises `AttributeError` (message abridged,
apostrophes dropped). -/
def getAttr (x : DictOrRaw) (f : VulnDict → Option String) (dflt : String) :
    Except String String :=
  match x with
  | .dict d => .ok ((f d).getD dflt)
  | .raw _ => .error "str object has no attribute get"

/-- Python `.replace('_', ' ')`. -/
def pyReplaceUnderscore (s : String) : String :=
  String.mk (s.data.map (fun c => if c = '_' then ' ' else c))

/-- Helper for Python `.title()`: the flag records whether the previous
character was alphabetic. -/
def pyTitleAux : Bool → List Char → List Char
  | _, [] => []
  | prevAlpha, c :: cs =>
      (if c.isAlpha then (if prevAlpha then c.toLower else c.toUpper) else c) ::
        pyTitleAux c.isAlpha cs

/-- Python `.title()` (ASCII title-casing). -/
def pyTitle (s : String) : String := String.mk (pyTitleAux false s.data)

/-- Round `a / b` (with `b` positive) half to even, as Python float
formatting rounds; phrased on integers so that it evaluates. -/
def roundDiv (a b : Int) : Int :=
  let f := Int.fdiv a b
  let r := a - f * b
  if 2 * r < b then f
  else if b < 2 * r then f + 1
  else if f % 2 = 0 then f else f + 1

/-- Python `f"{x:.1%}"`: the value times 100 with one decimal digit and a
percent sign (at rational precision): the rounded number of tenths of a
percent is `roundDiv (1000 * num) den`. -/
def formatPercent1 (q : ℚ) : String :=
  let m := roundDiv (q.num * 1000) (q.den : Int)
  (if m < 0 then "-" else "") ++
    toString (m.natAbs / 10) ++ "." ++ toString (m.natAbs % 10) ++ "%"

/-- The lines emitted for one vulnerability or issue record
(`app.py` lines 296-310 and the identical lines 319-333), numbered `i`.
Each `.get` may raise on a non-dict record, so the result is fallible. -/
def entryLines (i : Nat) (x : DictOrRaw) : Except String (List String) := do
  let vd := serialize_object x
  let severity_emoji := get_severity_emoji (← getAttr vd VulnDict.severity "MEDIUM")
  let ty ← getAttr vd VulnDict.type "Unknown"
  let fl ← getAttr vd VulnDict.file "N/A"
  let sev ← getAttr vd VulnDict.severity "MEDIUM"
  let desc ← getAttr vd VulnDict.description "No description provided"
  let reco ← getAttr vd VulnDict.recommendation "No recommendation provided"
  pure
    ["### " ++ severity_emoji ++ " " ++ toString i ++ ". " ++
        pyTitle (pyReplaceUnderscore ty),
     "",
     "**File:** `" ++ fl ++ "`",
     "**Severity:** " ++ sev,
     "",
     "**Description:** " ++ desc,
     "",
     "**Recommendation:** " ++ reco,
     ""]

/-- `enumerate(entries, start)`: the concatenated entry lines, first raise
wins. -/
def entriesLines (start : Nat) : List DictOrRaw → Except String (List String)
  | [] => .ok []
  | x :: xs => do
      let l ← entryLines start x
      let rest ← entriesLines (start + 1) xs
      pure (l ++ rest)

/-- The vulnerabilities section (`app.py` lines 290-310): empty when the
list is empty, else a counted heading and one block per record. -/
def vulnSection (vulns : List DictOrRaw) : Except String (List String) :=
  if vulns.isEmpty then .ok []
  else
    match entriesLines 1 vulns with
    | .ok body => .ok (("## ğŸš¨ Security Vulnerabilities (" ++
        toString vulns.length ++ ")") :: "" :: body)
    | .error e => .error e

/-- The issues section (`app.py` lines 313-333), same block structure. -/
def issueSection (issues : List DictOrRaw) : Except String (List String) :=
  if issues.isEmpty then .ok []
  else
    match entriesLines 1 issues with
    | .ok body => .ok (("## âš ï¸ Code Quality Issues (" ++
        toString issues.length ++ ")") :: "" :: body)
    | .error e => .error e

/-- The fixed header block of the report (`app.py` lines 262-278). -/
def headerLines (r : RenderInput) (pr : PrData) (now : String) : List String :=
  ["# ğŸ¤– AI Code Review Report",
   "",
   "**PR:** " ++ pr.title.getD "N/A" ++ " (#" ++ pr.number.getD "N/A" ++ ")",
   "**Generated:** " ++ now ++ " UTC",
   "**AI Confidence:** " ++ formatPercent1 r.ai_confidence,
   "",
   "## ğŸ“Š Scores",
   "",
   "| Metric | Score | Status |",
   "|--------|-------|--------|",
   "| Security | " ++ toString r.security_score ++ "/100 | " ++
     get_score_emoji r.security_score ++ " |",
   "| Quality | " ++ toString r.quality_score ++ "/100 | " ++
     get_score_emoji r.quality_score ++ " |",
   "",
   "## ğŸ¯ Recommendation: **" ++ r.approval ++ "**",
   ""]

/-- The summary section (`app.py` lines 281-287), omitted for an empty
summary. -/
def summarySection (summary : String) : List String :=
  if summary = "" then []
  else ["## ğŸ“ Summary", "", summary, ""]

/-- Numbered list items starting at `i`. -/
def numberItems (i : Nat) : List String → List String
  | [] => []
  | x :: xs => (toString i ++ ". " ++ x) :: numberItems (i + 1) xs

/-- The recommendations section (`app.py` lines 336-349): omitted when
falsy; a non-list value is rendered as the single item `1.`. -/
def recSection : RecValue → List String
  | .ofList l =>
      if l.isEmpty then []
      else ("## ğŸ’¡ Recommendations" :: "" :: numberItems 1 l) ++ [""]
  | .single s =>
      if s = "" then []
      else ["## ğŸ’¡ Recommendations", "", "1. " ++ s, ""]

/-- The `try` body of `generate_markdown_report` (`app.py` lines 251-357):
the assembled report lines, or the first exception raised while rendering a
malformed record. -/
def buildReportLines (r : RenderInput) (pr : PrData) (now : String) :
    Except String (List String) :=
  match vulnSection r.vulnerabilities, issueSection r.issues with
  | .ok vl, .ok il =>
      .ok (headerLines r pr now ++ summarySection r.summary ++ vl ++ il ++
        recSection r.recommendations ++
        ["---", "*Generated by AI Code Reviewer v1.0*"])
  | .error e, _ => .error e
  | .ok _, .error e => .error e

/-- `generate_markdown_report` (`app.py` lines 249-361): the joined report
lines, with the `except` fallback producing the minimal error document. -/
def generate_markdown_report (r : RenderInput) (pr : PrData) (now : String) :
    String :=
  match buildReportLines r pr now with
  | .ok ls => String.intercalate "\n" ls
  | .error e =>
      "# ğŸ¤– AI Code Review Report\n\nError generating report: " ++ e

/-- View of a constructed `ReviewResult` as renderer input: `getattr` on a
real `ReviewResult` finds every attribute, and its list entries are dicts. -/
def renderInputOfResult (r : ReviewResult) : RenderInput where
  security_score := r.security_score
  quality_score := r.quality_score
  approval := r.approval
  ai_confidence := r.ai_confidence
  summary := r.summary
  vulnerabilities := r.vulnerabilities.map DictOrRaw.dict
  issues := r.issues.map DictOrRaw.dict
  recommendations := .ofList r.recommendations

/-! ## HTTP handlers (`app.py` lines 92-246). -/

/-- A per-file diff record as the placeholder `get_pr_files` returns. -/
structure FileRecord where
  filename : String
  status : String
  additions : Nat
  deletions : Nat
  changes : Nat
  patch : String
  file_type : String
deriving DecidableEq

/-- `get_pr_files` (`app.py` lines 229-246): the placeholder file list. -/
def get_pr_files : List FileRecord :=
  [{ filename := "example.py", status := "modified", additions := 10,
     deletions := 5, changes := 15,
     patch := "+def new_function():\n+    return \"hello\"\n-# old comment",
     file_type := "python" }]

/-- A parsed webhook payload: the keys `github_webhook` reads.
`repository_full_name` stands for `payload['repository']['full_name']`;
`none` for a missing key makes the subscript raise `KeyError`. -/
structure WebhookPayload where
  action : Option String := none
  repository_full_name : Option String := none
  pull_request : Option PrData := none

/-- The observable side steps of a webhook/review request, recorded in
order: the repository allow-list check, the file fetch, the call to the AI
collaborator, the construction of the `ReviewResult` from its output
(inside the collaborator boundary, spec section 4.4), and report
rendering. -/
inductive Effect where
  | allowlist_check
  | fetch_files
  | ai_call
  | construct_result
  | render_report
deriving DecidableEq, Repr

/-- A JSON HTTP response of the webhook route: an error object, a message
object, or the success object carrying the rendered report. -/
inductive WebhookResponse where
  | errJson (status : Nat) (error_msg : String)
  | msgJson (status : Nat) (message : String)
  | reviewJson (status : Nat) (markdown_report : String)
deriving DecidableEq

/-- `github_webhook` (`app.py` lines 92-157).  The request is carried as
its raw bytes, its signature header, and its parsed JSON payload; the AI
collaborator's eventual output is the parameter `aiResult` (the call is
external, spec section 2).  Returns the response together with the ordered
list of side steps performed. -/
def github_webhook (secret : List Nat) (allowed_repos : List String)
    (body : List Nat) (sig : Option String) (payload : WebhookPayload)
    (aiResult : RenderInput) (now : String) :
    WebhookResponse × List Effect :=
  if !(verify_github_signature secret body sig) then
    (.errJson 401 "Invalid signature", [])
  else if !(match payload.action with
            | some a => a == "opened" || a == "synchronize" || a == "reopened"
            | none => false) then
    (.msgJson 200 "Event ignored", [])
  else
    match payload.repository_full_name with
    | none => (.errJson 500 "KeyError: repository", [])
    | some repo =>
        if !allowed_repos.isEmpty && !(allowed_repos.contains repo) then
          (.errJson 403 "Repository not allowed", [.allowlist_check])
        else
          match payload.pull_request with
          | none => (.errJson 500 "KeyError: pull_request", [.allowlist_check])
          | some pr =>
              match pr.number, pr.title with
              | some _, some _ =>
                  (.reviewJson 200 (generate_markdown_report aiResult pr now),
                   [.allowlist_check, .fetch_files, .ai_call,
                    .construct_result, .render_report])
              | _, _ => (.errJson 500 "KeyError: pull_request field",
                   [.allowlist_check])

/-- A parsed `/review` request body: `Option` marks key presence. -/
structure ReviewRequest where
  pr_title : Option String := none
  pr_body : Option String := none
  files : Option (List FileRecord) := none
  preferences : Option (List (String × String)) := none
  pr_number : Option String := none
  pr_url : Option String := none

/-- A JSON HTTP response of the `/review` route. -/
inductive ReviewResponse where
  | missingFields (status : Nat) (required : List String)
  | reviewJson (status : Nat) (markdown_report : String)
  | errJson (status : Nat) (error_msg : String)
deriving DecidableEq

/-- `manual_review` (`app.py` lines 160-226): requires the three fields
`pr_title`, `pr_body`, `files` before any further work; on success the AI
collaborator output `aiResult` is rendered against the synthesized PR
metadata. -/
def manual_review (data : ReviewRequest) (aiResult : RenderInput)
    (now : String) : ReviewResponse × List Effect :=
  if data.pr_title.isSome && data.pr_body.isSome && data.files.isSome then
    (.reviewJson 200 (generate_markdown_report aiResult
        { title := data.pr_title,
          number := some (data.pr_number.getD "manual"),
          html_url := some (data.pr_url.getD "#") } now),
     [.ai_call, .construct_result, .render_report])
  else
    (.missingFields 400 ["pr_title", "pr_body", "files"], [])

/-! ## Theorems -/

/-- Clamping is idempotent in any linear order. -/
theorem clamp_clamp {α : Type} [LinearOrder α] (lo hi x : α) (h : lo ≤ hi) :
    max lo (min hi (max lo (min hi x))) = max lo (min hi x) := by
  have h1 : lo ≤ max lo (min hi x) := le_max_left _ _
  have h2 : max lo (min hi x) ≤ hi := max_le h (min_le_left _ _)
  rw [min_eq_right h2, max_eq_right h1]

/-- C1: constructing a `ReviewResult` is total (the constructor is a Lean
function, so it yields a result for every integer score and rational
confidence, never rejecting), and the constructed `security_score` and
`quality_score` lie in `[0, 100]` while the constructed `ai_confidence`
lies in `[0, 1]`. -/
theorem mkReviewResult_scores_and_confidence_clamped
    (s q : Int) (v i : List VulnDict) (su : String) (re : List String)
    (a : String) (c : ℚ) (ca : Option (List (String × String)))
    (ts : Option String) (now : String) :
    0 ≤ (mkReviewResult s q v i su re a c ca ts now).security_score ∧
    (mkReviewResult s q v i su re a c ca ts now).security_score ≤ 100 ∧
    0 ≤ (mkReviewResult s q v i su re a c ca ts now).quality_score ∧
    (mkReviewResult s q v i su re a c ca ts now).quality_score ≤ 100 ∧
    0 ≤ (mkReviewResult s q v i su re a c ca ts now).ai_confidence ∧
    (mkReviewResult s q v i su re a c ca ts now).ai_confidence ≤ 1 := by
  refine ⟨le_max_left _ _, max_le (by norm_num) (min_le_left _ _),
    le_max_left _ _, max_le (by norm_num) (min_le_left _ _),
    le_max_left _ _, max_le (by norm_num) (min_le_left _ _)⟩

/-- C2: an input `approval` outside `{APPROVE, REQUEST_CHANGES, COMMENT}`
is coerced to `COMMENT` by construction, and an input in that set is kept
unchanged. -/
theorem mkReviewResult_approval_normalized
    (s q : Int) (v i : List VulnDict) (su : String) (re : List String)
    (a : String) (c : ℚ) (ca : Option (List (String × String)))
    (ts : Option String) (now : String) :
    (a ≠ "APPROVE" → a ≠ "REQUEST_CHANGES" → a ≠ "COMMENT" →
      (mkReviewResult s q v i su re a c ca ts now).approval = "COMMENT") ∧
    ((a = "APPROVE" ∨ a = "REQUEST_CHANGES" ∨ a = "COMMENT") →
      (mkReviewResult s q v i su re a c ca ts now).approval = a) := by
  constructor
  · intro h1 h2 h3
    simp only [mkReviewResult, valid_approvals]
    rw [if_neg]
    simp [h1, h2, h3]
  · intro h
    simp only [mkReviewResult, valid_approvals]
    rw [if_pos]
    simpa using h

/-- Witness for C2 at the concrete invalid input `"BLOCK"`. -/
theorem mkReviewResult_approval_normalized_witness :
    (mkReviewResult 50 60 [] [] "" [] "BLOCK" (1/2) none none "t").approval
      = "COMMENT" :=
  (mkReviewResult_approval_normalized 50 60 [] [] "" [] "BLOCK" (1/2) none
    none "t").1 (by decide) (by decide) (by decide)

/-- Truncation toward zero agrees with the floor on nonnegative rationals. -/
theorem pyInt_eq_floor (q : ℚ) (h : 0 ≤ q) : pyInt q = ⌊q⌋ := by
  have hnum : 0 ≤ q.num := Rat.num_nonneg.mpr h
  have hden : (0 : Int) ≤ (q.den : Int) := Int.ofNat_nonneg q.den
  rw [pyInt, Int.tdiv_eq_ediv hnum hden]
  conv_rhs => rw [← Rat.num_div_den q]
  exact (Rat.floor_intCast_div_natCast q.num q.den).symm

/-- C4: for every constructed `ReviewResult`, `overall_score` equals the
floor of the average of the (clamped) security and quality scores. -/
theorem overall_score_eq_floor_average
    (s q : Int) (v i : List VulnDict) (su : String) (re : List String)
    (a : String) (c : ℚ) (ca : Option (List (String × String)))
    (ts : Option String) (now : String) :
    (mkReviewResult s q v i su re a c ca ts now).overall_score =
      ⌊(((mkReviewResult s q v i su re a c ca ts now).security_score : ℚ) +
        ((mkReviewResult s q v i su re a c ca ts now).quality_score : ℚ)) / 2⌋ := by
  apply pyInt_eq_floor
  have hs : (0 : Int) ≤ (mkReviewResult s q v i su re a c ca ts now).security_score :=
    le_max_left _ _
  have hq : (0 : Int) ≤ (mkReviewResult s q v i su re a c ca ts now).quality_score :=
    le_max_left _ _
  have hs' : (0 : ℚ) ≤ ((mkReviewResult s q v i su re a c ca ts now).security_score : ℚ) := by
    exact_mod_cast hs
  have hq' : (0 : ℚ) ≤ ((mkReviewResult s q v i su re a c ca ts now).quality_score : ℚ) := by
    exact_mod_cast hq
  positivity

/-- C5: `needs_attention` holds exactly when the security score is below 70,
or the quality score is below 70, or the approval is `REQUEST_CHANGES`, or
the number of vulnerabilities of severity `CRITICAL` or `HIGH` plus the
number of issues of severity `HIGH` is positive; and it holds in particular
at security 65, quality 95, empty lists, approval `COMMENT`. -/
theorem needs_attention_characterization
    (s q : Int) (v i : List VulnDict) (su : String) (re : List String)
    (a : String) (c : ℚ) (ca : Option (List (String × String)))
    (ts : Option String) (now : String) :
    ((mkReviewResult s q v i su re a c ca ts now).needs_attention = true ↔
      ((mkReviewResult s q v i su re a c ca ts now).security_score < 70 ∨
       (mkReviewResult s q v i su re a c ca ts now).quality_score < 70 ∨
       (mkReviewResult s q v i su re a c ca ts now).approval = "REQUEST_CHANGES" ∨
       0 < v.countP (fun x => x.severity == some "CRITICAL" ||
              x.severity == some "HIGH") +
           i.countP (fun x => x.severity == some "HIGH"))) ∧
    (mkReviewResult 65 95 [] [] su re "COMMENT" c ca ts now).needs_attention
      = true := by
  constructor
  · simp only [ReviewResult.needs_attention, ReviewResult.critical_issues_count,
      mkReviewResult, Bool.or_eq_true, decide_eq_true_eq, beq_iff_eq]
    tauto
  · simp [ReviewResult.needs_attention, mkReviewResult]

/-- C10: re-constructing a `ReviewResult` from the stored fields of an
already-constructed one leaves `security_score`, `quality_score`,
`ai_confidence` and `approval` unchanged. -/
theorem mkReviewResult_idempotent
    (s q : Int) (v i : List VulnDict) (su : String) (re : List String)
    (a : String) (c : ℚ) (ca : Option (List (String × String)))
    (ts : Option String) (now now2 : String) :
    (mkReviewResult
        (mkReviewResult s q v i su re a c ca ts now).security_score
        (mkReviewResult s q v i su re a c ca ts now).quality_score
        (mkReviewResult s q v i su re a c ca ts now).vulnerabilities
        (mkReviewResult s q v i su re a c ca ts now).issues
        (mkReviewResult s q v i su re a c ca ts now).summary
        (mkReviewResult s q v i su re a c ca ts now).recommendations
        (mkReviewResult s q v i su re a c ca ts now).approval
        (mkReviewResult s q v i su re a c ca ts now).ai_confidence
        (mkReviewResult s q v i su re a c ca ts now).complexity_analysis
        (mkReviewResult s q v i su re a c ca ts now).timestamp
        now2).security_score
      = (mkReviewResult s q v i su re a c ca ts now).security_score ∧
    (mkReviewResult
        (mkReviewResult s q v i su re a c ca ts now).security_score
        (mkReviewResult s q v i su re a c ca ts now).quality_score
        (mkReviewResult s q v i su re a c ca ts now).vulnerabilities
        (mkReviewResult s q v i su re a c ca ts now).issues
        (mkReviewResult s q v i su re a c ca ts now).summary
        (mkReviewResult s q v i su re a c ca ts now).recommendations
        (mkReviewResult s q v i su re a c ca ts now).approval
        (mkReviewResult s q v i su re a c ca ts now).ai_confidence
        (mkReviewResult s q v i su re a c ca ts now).complexity_analysis
        (mkReviewResult s q v i su re a c ca ts now).timestamp
        now2).quality_score
      = (mkReviewResult s q v i su re a c ca ts now).quality_score ∧
    (mkReviewResult
        (mkReviewResult s q v i su re a c ca ts now).security_score
        (mkReviewResult s q v i su re a c ca ts now).quality_score
        (mkReviewResult s q v i su re a c ca ts now).vulnerabilities
        (mkReviewResult s q v i su re a c ca ts now).issues
        (mkReviewResult s q v i su re a c ca ts now).summary
        (mkReviewResult s q v i su re a c ca ts now).recommendations
        (mkReviewResult s q v i su re a c ca ts now).approval
        (mkReviewResult s q v i su re a c ca ts now).ai_confidence
        (mkReviewResult s q v i su re a c ca ts now).complexity_analysis
        (mkReviewResult s q v i su re a c ca ts now).timestamp
        now2).ai_confidence
      = (mkReviewResult s q v i su re a c ca ts now).ai_confidence ∧
    (mkReviewResult
        (mkReviewResult s q v i su re a c ca ts now).security_score
        (mkReviewResult s q v i su re a c ca ts now).quality_score
        (mkReviewResult s q v i su re a c ca ts now).vulnerabilities
        (mkReviewResult s q v i su re a c ca ts now).issues
        (mkReviewResult s q v i su re a c ca ts now).summary
        (mkReviewResult s q v i su re a c ca ts now).recommendations
        (mkReviewResult s q v i su re a c ca ts now).approval
        (mkReviewResult s q v i su re a c ca ts now).ai_confidence
        (mkReviewResult s q v i su re a c ca ts now).complexity_analysis
        (mkReviewResult s q v i su re a c ca ts now).timestamp
        now2).approval
      = (mkReviewResult s q v i su re a c ca ts now).approval := by
  refine ⟨?_, ?_, ?_, ?_⟩
  · exact clamp_clamp 0 100 s (by norm_num)
  · exact clamp_clamp 0 100 q (by norm_num)
  · exact clamp_clamp 0 1 c (by norm_num)
  · simp only [mkReviewResult]
    by_cases h : a ∈ valid_approvals
    · rw [if_pos h, if_pos h]
    · rw [if_neg h, if_pos (by simp [valid_approvals])]

example : hexOfBytes (sha256 [0x61, 0x62, 0x63]) =
    "ba7816bf8f01cfea414140de5dae2223b00361a396177a9cb410ff61f20015ad" := by decide

set_option maxRecDepth 40000 in
example : hexOfBytes (hmacSha256 s3cr3tBytes helloBytes) =
    "6b23653f08c72072554e5dfef9b72efe01fcfe724a950689e991e7bd7089eb3e" := by
  decide

/-- A string beginning with `sha256=` is never empty. -/
theorem empty_ne_sha256_header (x : String) : "" ≠ "sha256=" ++ x := by
  intro h
  have h2 := congrArg String.length h
  rw [String.length_append] at h2
  have h0 : ("" : String).length = 0 := rfl
  have h7 : ("sha256=" : String).length = 7 := rfl
  omega

/-- C3: with a non-empty configured secret, verification of an absent
header fails; verification of a present header succeeds exactly when the
header is `sha256=` followed by the lowercase hex HMAC-SHA256 of the body
under the secret (so any mutation of the correct header fails); and with
no configured secret every body/header verifies. -/
theorem verify_github_signature_correct (secret body : List Nat)
    (hs : secret ≠ []) :
    verify_github_signature secret body none = false ∧
    (∀ hd : String, verify_github_signature secret body (some hd) = true ↔
        hd = "sha256=" ++ hexOfBytes (hmacSha256 secret body)) ∧
    (∀ hd : String, hd ≠ "sha256=" ++ hexOfBytes (hmacSha256 secret body) →
        verify_github_signature secret body (some hd) = false) ∧
    (∀ body2 : List Nat, ∀ hd2 : Option String,
        verify_github_signature [] body2 hd2 = true) := by
  have hiff : ∀ hd : String,
      verify_github_signature secret body (some hd) = true ↔
        hd = "sha256=" ++ hexOfBytes (hmacSha256 secret body) := by
    intro hd
    by_cases he : hd = ""
    · subst he
      simp only [verify_github_signature, if_neg hs, if_pos rfl]
      constructor
      · intro h; exact absurd h (by simp)
      · intro h; exact absurd h (empty_ne_sha256_header _)
    · simp [verify_github_signature, hs, he]
  refine ⟨by simp [verify_github_signature, hs], hiff, ?_, ?_⟩
  · intro hd hne
    cases hv : verify_github_signature secret body (some hd) with
    | false => rfl
    | true => exact absurd ((hiff hd).mp hv) hne
  · intro body2 hd2
    simp [verify_github_signature]

set_option maxRecDepth 40000 in
/-- Witness for C3: the secret `s3cr3t`, the body `hello`, and the exact
header `sha256=` + hex HMAC-SHA256 are accepted. -/
theorem verify_github_signature_correct_witness :
    verify_github_signature s3cr3tBytes helloBytes
        (some "sha256=6b23653f08c72072554e5dfef9b72efe01fcfe724a950689e991e7bd7089eb3e")
      = true :=
  ((verify_github_signature_correct s3cr3tBytes helloBytes
      (by decide)).2.1 _).mpr (by decide)

/-- C6: a signature-verified webhook whose action is not `opened`,
`synchronize` or `reopened` (including a missing action) gets the
HTTP 200 `Event ignored` response, with no allow-list check, no file
fetch, no AI collaborator call, no `ReviewResult` construction and no
rendering (the effect list is empty). -/
theorem github_webhook_ignores_other_actions
    (secret : List Nat) (allowed_repos : List String) (body : List Nat)
    (sig : Option String) (payload : WebhookPayload) (aiResult : RenderInput)
    (now : String)
    (hsig : verify_github_signature secret body sig = true)
    (hact : ∀ a : String, payload.action = some a →
        a ≠ "opened" ∧ a ≠ "synchronize" ∧ a ≠ "reopened") :
    github_webhook secret allowed_repos body sig payload aiResult now =
      (.msgJson 200 "Event ignored", []) := by
  have hcond : (match payload.action with
      | some a => a == "opened" || a == "synchronize" || a == "reopened"
      | none => false) = false := by
    cases hpa : payload.action with
    | none => rfl
    | some a =>
        obtain ⟨h1, h2, h3⟩ := hact a hpa
        simp [h1, h2, h3]
  simp [github_webhook, hsig, hcond]

/-- Witness for C6: an open-mode request with action `closed` is ignored
with an empty effect list. -/
theorem github_webhook_ignores_other_actions_witness :
    github_webhook [] [] [] none { action := some "closed" } {} "t" =
      (.msgJson 200 "Event ignored", []) :=
  github_webhook_ignores_other_actions [] [] [] none { action := some "closed" }
    {} "t" (by decide)
    (fun a ha => by
      have h := Option.some.inj ha
      subst h
      exact ⟨by decide, by decide, by decide⟩)

/-- C7: `generate_markdown_report` is total — for every input it returns
the joined report lines when assembly succeeds and the minimal error
document (header plus error message) when assembly raises — and the
raising branch is reachable (a non-dict vulnerability record raises). -/
theorem generate_markdown_report_total_or_degrades
    (r : RenderInput) (pr : PrData) (now : String) :
    ((∃ ls : List String, buildReportLines r pr now = .ok ls ∧
        generate_markdown_report r pr now = String.intercalate "\n" ls) ∨
     (∃ e : String, buildReportLines r pr now = .error e ∧
        generate_markdown_report r pr now =
          "# ğŸ¤– AI Code Review Report\n\nError generating report: " ++ e)) ∧
    (∃ e : String,
      buildReportLines { vulnerabilities := [DictOrRaw.raw "boom"] } pr now
        = .error e) := by
  constructor
  · cases h : buildReportLines r pr now with
    | ok ls => exact .inl ⟨ls, rfl, by simp [generate_markdown_report, h]⟩
    | error e => exact .inr ⟨e, rfl, by simp [generate_markdown_report, h]⟩
  · exact ⟨"str object has no attribute get", rfl⟩

/-- C8: rendering a `ReviewResult` with no vulnerabilities and no issues
yields exactly the header block (score table included), the summary block
— present exactly when the summary is non-empty —, the recommendations
block and the fixed footer line, with no vulnerabilities section and no
issues section; the score rows and footer are lines of the report; and the
score tier labels are Excellent at 90 and above, Good at 70, Fair at 50,
Poor below 50. -/
theorem report_omits_empty_sections (r : ReviewResult) (pr : PrData)
    (now : String) (hv : r.vulnerabilities = []) (hi : r.issues = []) :
    (∃ ls : List String,
      buildReportLines (renderInputOfResult r) pr now = .ok ls ∧
      ls = headerLines (renderInputOfResult r) pr now ++
        (if r.summary = "" then [] else ["## ğŸ“ Summary", "", r.summary, ""]) ++
        recSection (.ofList r.recommendations) ++
        ["---", "*Generated by AI Code Reviewer v1.0*"] ∧
      ("| Security | " ++ toString r.security_score ++ "/100 | " ++
          get_score_emoji r.security_score ++ " |") ∈ ls ∧
      ("| Quality | " ++ toString r.quality_score ++ "/100 | " ++
          get_score_emoji r.quality_score ++ " |") ∈ ls ∧
      "*Generated by AI Code Reviewer v1.0*" ∈ ls) ∧
    (∀ sc : Int,
      (90 ≤ sc → get_score_emoji sc = "ğŸŸ¢ Excellent") ∧
      (70 ≤ sc → sc < 90 → get_score_emoji sc = "ğŸŸ¡ Good") ∧
      (50 ≤ sc → sc < 70 → get_score_emoji sc = "ğŸŸ  Fair") ∧
      (sc < 50 → get_score_emoji sc = "ğŸ”´ Poor")) := by
  have h1 : vulnSection (List.map DictOrRaw.dict r.vulnerabilities)
      = .ok [] := by
    rw [hv]; rfl
  have h2 : issueSection (List.map DictOrRaw.dict r.issues) = .ok [] := by
    rw [hi]; rfl
  constructor
  · refine ⟨headerLines (renderInputOfResult r) pr now ++
      (if r.summary = "" then [] else ["## ğŸ“ Summary", "", r.summary, ""]) ++
      recSection (.ofList r.recommendations) ++
      ["---", "*Generated by AI Code Reviewer v1.0*"], ?_, rfl, ?_, ?_, ?_⟩
    · simp only [buildReportLines, renderInputOfResult, summarySection,
        h1, h2]
      simp
    · simp [headerLines, renderInputOfResult]
    · simp [headerLines, renderInputOfResult]
    · simp
  · intro sc
    refine ⟨fun h => ?_, fun ha hb => ?_, fun ha hb => ?_, fun h => ?_⟩ <;>
      (unfold get_score_emoji; split_ifs <;> first | rfl | omega)

/-- Witness for C8 at a concrete result with empty lists. -/
theorem report_omits_empty_sections_witness :
    ({ security_score := 82, quality_score := 45, vulnerabilities := [],
       issues := [], summary := "Looks fine",
       recommendations := ["Add tests"], approval := "COMMENT",
       ai_confidence := 1/2 } : ReviewResult).vulnerabilities = [] ∧
    ({ security_score := 82, quality_score := 45, vulnerabilities := [],
       issues := [], summary := "Looks fine",
       recommendations := ["Add tests"], approval := "COMMENT",
       ai_confidence := 1/2 } : ReviewResult).issues = [] ∧
    get_score_emoji 95 = "ğŸŸ¢ Excellent" :=
  ⟨rfl, rfl,
    ((report_omits_empty_sections
      { security_score := 82, quality_score := 45, vulnerabilities := [],
        issues := [], summary := "Looks fine",
        recommendations := ["Add tests"], approval := "COMMENT",
        ai_confidence := 1/2 } {} "t" rfl rfl).2 95).1 (by decide)⟩

example : buildReportLines (renderInputOfResult
    { security_score := 82, quality_score := 45, vulnerabilities := [],
      issues := [], summary := "Looks fine", recommendations := ["Add tests"],
      approval := "COMMENT",
      ai_confidence := ⟨1, 2, by decide, by decide⟩ }) {} "t" = .ok
    ["# ğŸ¤– AI Code Review Report",
     "",
     "**PR:** N/A (#N/A)",
     "**Generated:** t UTC",
     "**AI Confidence:** 50.0%",
     "",
     "## ğŸ“Š Scores",
     "",
     "| Metric | Score | Status |",
     "|--------|-------|--------|",
     "| Security | 82/100 | ğŸŸ¡ Good |",
     "| Quality | 45/100 | ğŸ”´ Poor |",
     "",
     "## ğŸ¯ Recommendation: **COMMENT**",
     "",
     "## ğŸ“ Summary",
     "",
     "Looks fine",
     "",
     "## ğŸ’¡ Recommendations",
     "",
     "1. Add tests",
     "",
     "---",
     "*Generated by AI Code Reviewer v1.0*"] := rfl

/-- C9: a `/review` request lacking `pr_title`, `pr_body` or `files` gets
HTTP 400 listing the three required fields, with no AI collaborator call
and no further work (empty effect list). -/
theorem manual_review_missing_fields_400
    (data : ReviewRequest) (aiResult : RenderInput) (now : String)
    (h : data.pr_title = none ∨ data.pr_body = none ∨ data.files = none) :
    manual_review data aiResult now =
      (.missingFields 400 ["pr_title", "pr_body", "files"], []) := by
  have hc : (data.pr_title.isSome && data.pr_body.isSome &&
      data.files.isSome) = false := by
    rcases h with h | h | h <;> simp [h]
  simp [manual_review, hc]

/-- Witness for C9: a request with title and body but no `files`. -/
theorem manual_review_missing_fields_400_witness :
    manual_review { pr_title := some "T", pr_body := some "B" } {} "t" =
      (.missingFields 400 ["pr_title", "pr_body", "files"], []) :=
  manual_review_missing_fields_400 { pr_title := some "T", pr_body := some "B" }
    {} "t" (Or.inr (Or.inr rfl))
